import Mathlib

/-!
# eth-faucet: the dispensing handler of `server.js`

A shallow embedding of the `POST /` route of `server.js`: the address
normalisation, the two greed checks against `TEN_ETH`, the gas price floor, the
transaction handed to `sendTransaction` and the two `cache.put` calls.

* JavaScript strings are sequences of UTF-16 code units (`JsString`), so that
  `.length` and `.slice(0, 2)` mean what they mean in JavaScript.
* `BN` values (balances, the gas price reported by the node) are natural numbers.
* JavaScript Numbers are modelled on the fragment the handler uses: non-negative
  integral doubles and `Infinity` (`JsNumber`), with `Number(bn)` rounding to the
  nearest double.
* The three RPC promises are an oracle (`Rpc`) giving, for each call, whether the
  promise resolves (`Except.ok`) or rejects (`Except.error`); every call made is
  recorded in a trace.
* `memory-cache` and `express-rate-limit` are not part of the repository's
  sources; they are modelled from the specification.
-/

namespace Faucet

/-! ## JavaScript strings -/

/-- A JavaScript string: its sequence of UTF-16 code units. -/
abbrev JsString := List Nat

/-- UTF-16 encoding of one Unicode scalar value. -/
def utf16 (c : Char) : List Nat :=
  if c.toNat < 65536 then [c.toNat]
  else [55296 + (c.toNat - 65536) / 1024, 56320 + (c.toNat - 65536) % 1024]

/-- The JavaScript string denoted by a literal. -/
def js (s : String) : JsString := s.toList.flatMap utf16

/-! ## JavaScript Numbers and `BN` conversions -/

/-- The Numbers the handler computes with: non-negative integral doubles and
`Infinity`. -/
inductive JsNumber where
  | fin (n : Nat)
  | inf
  deriving DecidableEq, Repr

/-- Order on the modelled Numbers, `Infinity` on top. -/
def JsNumber.le : JsNumber → JsNumber → Bool
  | .fin a, .fin b => decide (a ≤ b)
  | _, .inf => true
  | .inf, .fin _ => false

/-- The function `Math.max(a, b)` on the modelled Numbers. -/
def JsNumber.max : JsNumber → JsNumber → JsNumber
  | .fin a, .fin b => .fin (Nat.max a b)
  | _, _ => .inf

/-- Floor of the binary logarithm, by halving (`fuel` bounds the number of
halvings; `fuel = n` always suffices). -/
def log2Fuel : Nat → Nat → Nat
  | 0, _ => 0
  | fuel + 1, n => if n < 2 then 0 else log2Fuel fuel (n / 2) + 1

/-- The double nearest to the natural number `n` (IEEE 754 binary64, round to
nearest, ties to even; a result whose binary exponent would exceed 1023 is
`Infinity`). This is `Number(s)` for the
decimal string `s` of `n`. -/
def toNumber (n : Nat) : JsNumber :=
  if n < 2 ^ 53 then .fin n
  else
    let e := log2Fuel n n - 52
    let q := n / 2 ^ e
    let r := n % 2 ^ e
    let half := 2 ^ (e - 1)
    let q1 := if half < r ∨ (r = half ∧ q % 2 = 1) then q + 1 else q
    let v := q1 * 2 ^ e
    if 1023 < log2Fuel v v then .inf else .fin v

/-- The conversion `Number(price)` for a `BN`: `BN` has no `valueOf`, so the conversion goes
through `BN.prototype.toString()` (base 10) and then string-to-Number. -/
def Number (price : Nat) : JsNumber := toNumber price

/-- Decimal digits of a natural number, most significant first, as code units. -/
def decimalDigits : Nat → Nat → List Nat → List Nat
  | 0, _, acc => acc
  | fuel + 1, n, acc =>
    if n < 10 then (48 + n) :: acc
    else decimalDigits fuel (n / 10) ((48 + n % 10) :: acc)

/-- The conversion `String(x)` for a Number: an integral value below `1e21` prints as its
decimal digits (exponent notation, used from `1e21` on, is not modelled: the
only argument in the program is `FAUCET_AMOUNT`). -/
def toDecimalString (x : JsNumber) : JsString :=
  match x with
  | .fin n => decimalDigits (n + 1) n []
  | .inf => js "Infinity"

/-- The constructor `new BN(s, 10)` for a string of decimal digits. -/
def BN (s : JsString) : Nat := s.foldl (fun acc d => acc * 10 + (d - 48)) 0

/-! ## Constants of `server.js` -/

/-- Line 20: `const ETHER = 1e18`. -/
def ETHER : JsNumber := .fin 1000000000000000000

/-- Line 21: `const FIFTEEN_MIN = 15 * 60 * 1000`. -/
def FIFTEEN_MIN : Nat := 15 * 60 * 1000

/-- Line 22: `const FAUCET_AMOUNT = (1 * ETHER)`: the double product, the exact product
rounded to the nearest double. -/
def FAUCET_AMOUNT : JsNumber :=
  match ETHER with
  | .fin e => toNumber (1 * e)
  | .inf => .inf

/-- Line 23: `const TEN_ETH = new BN('10000000000000000000', 10)`. -/
def TEN_ETH : Nat := BN (js "10000000000000000000")

/-- The gas price floor `2e9` of `Math.max(Number(price), 2e9)`. -/
def GAS_FLOOR : JsNumber := .fin 2000000000

/-! ## The abuse cache (`memory-cache`) -/

/-- A stored value with the absolute time (ms) at which it expires. -/
structure CacheRecord where
  value : Nat
  expire : Nat
  deriving DecidableEq, Repr

/-- Modelled from the spec: the `memory-cache` module required by `server.js`
(spec 4.2, `get(addr) -> Amount | absent`, `put(addr, amount, ttl)`), a
time-bounded mapping from address to last-observed balance with no eviction
other than expiry. -/
structure Cache where
  entries : List (JsString × CacheRecord)
  deriving DecidableEq, Repr

/-- Modelled from the spec: `cache.put(key, value, time)` at clock time `now`
creates or overwrites the entry of `key`, which then lives for `time` ms. -/
def Cache.put (cache : Cache) (key : JsString) (value : Nat) (time : Nat) (now : Nat) :
    Cache :=
  ⟨(key, ⟨value, now + time⟩) :: cache.entries.filter (fun kv => kv.1 ≠ key)⟩

/-- Modelled from the spec: `cache.get(key)` at clock time `now` is the stored
value, or absent (`null`) when there is no entry or its time-to-live has
elapsed. -/
def Cache.get (cache : Cache) (key : JsString) (now : Nat) : Option Nat :=
  match cache.entries.lookup key with
  | some r => if now ≤ r.expire then some r.value else none
  | none => none

/-! ## The RPC client (`ethjs-query` over `./index.js`) and the configuration -/

/-- The object handed to `ethQuery.sendTransaction` (`to_` and `from_` are its
`to` and `from`). -/
structure Transaction where
  to_ : JsString
  from_ : JsString
  value : JsNumber
  data : JsString
  gasPrice : JsNumber
  deriving DecidableEq, Repr

/-- A call made on `ethQuery`. -/
inductive RpcCall where
  | getBalance (address : JsString) (block : JsString)
  | gasPrice
  | sendTransaction (tx : Transaction)
  deriving DecidableEq, Repr

/-- How each promise of the RPC client settles: `ok` is the resolved value (a
`BN` for the two queries, the transaction result for a submission), `error` the
message of the rejection. -/
structure Rpc where
  getBalance : JsString → JsString → Except JsString Nat
  gasPrice : Except JsString Nat
  sendTransaction : Transaction → Except JsString JsString

/-- The record of `./get-config` as far as the handler reads it. -/
structure Config where
  address : JsString

/-- The times (`Date.now()`, ms) at which the handler body and its two caching
callbacks run. -/
structure Clock where
  request : Nat
  balance : Nat
  sent : Nat
  deriving DecidableEq, Repr

/-! ## The handler of `POST /` -/

/-- What a request writes to `res`. -/
inductive Response where
  | send (result : JsString)
  | json (status : Nat) (error : JsString)
  | tooManyRequests
  deriving DecidableEq, Repr

/-- The effect of one request: the response, the cache afterwards and the RPC
calls made, in order. -/
structure Outcome where
  response : Response
  cache : Cache
  trace : List RpcCall
  deriving DecidableEq, Repr

/-- Lines 139-142: `didError(err)`, that is `res.status(500).json({error: err.message})`. -/
def didError (err : JsString) : Response := .json 500 err

/-- The message of `new Error('User is greedy.')`. -/
def greedy : JsString := js "User is greedy."

/-- Lines 88-91: the request body with `'0x'` prepended unless its first two
code units already are `'0x'`. -/
def targetAddress (body : JsString) : JsString :=
  if body.take 2 ≠ js "0x" then js "0x" ++ body else body

/-- Lines 88-95: the normalised address, or the message of the parse error when
its length is not 42. -/
def parseAddress (body : JsString) : Except JsString JsString :=
  if (targetAddress body).length ≠ 42 then
    .error (js "Address parse failure - " ++ targetAddress body)
  else .ok (targetAddress body)

/-- Line 99: `cachedBalance && cachedBalance.gt(TEN_ETH)`. -/
def cachedGreedy (cachedBalance : Option Nat) : Bool :=
  match cachedBalance with
  | some b => decide (TEN_ETH < b)
  | none => false

/-- Line 115: `Math.max(Number(price), 2e9)`. -/
def adjustedPrice (price : Nat) : JsNumber := JsNumber.max (Number price) GAS_FLOOR

/-- Lines 118-124: the transaction submitted for a target and a reported price. -/
def mkTransaction (cfg : Config) (target : JsString) (price : Nat) : Transaction :=
  { to_ := target, from_ := cfg.address, value := FAUCET_AMOUNT, data := js "",
    gasPrice := adjustedPrice price }

/-- Lines 86-142: the fauceting request. The promise chain is run to its end
against the oracle `rpc`; `clock` gives the time of each `cache` access. -/
def handler (cfg : Config) (rpc : Rpc) (clock : Clock) (cache : Cache) (body : JsString) :
    Outcome :=
  match parseAddress body with
  | .error e => ⟨didError e, cache, []⟩
  | .ok target =>
    if cachedGreedy (cache.get target clock.request) then ⟨didError greedy, cache, []⟩
    else
      let c1 := RpcCall.getBalance target (js "pending")
      match rpc.getBalance target (js "pending") with
      | .error e => ⟨didError e, cache, [c1]⟩
      | .ok balance =>
        if TEN_ETH < balance then
          ⟨didError greedy, cache.put target balance FIFTEEN_MIN clock.balance, [c1]⟩
        else
          match rpc.gasPrice with
          | .error e => ⟨didError e, cache, [c1, .gasPrice]⟩
          | .ok price =>
            let tx := mkTransaction cfg target price
            match rpc.sendTransaction tx with
            | .error e => ⟨didError e, cache, [c1, .gasPrice, .sendTransaction tx]⟩
            | .ok result =>
              ⟨.send result,
                cache.put target (balance + BN (toDecimalString FAUCET_AMOUNT)) FIFTEEN_MIN
                  clock.sent,
                [c1, .gasPrice, .sendTransaction tx]⟩

/-! ## The rate limiter (`express-rate-limit`) and the route -/

/-- The options object given to `new RateLimit`. -/
structure RateLimit where
  windowMs : Nat
  max : Nat
  deriving DecidableEq, Repr

/-- The limiter's store: the start of the current window and one entry per
request counted in it (its origin). -/
structure LimiterState where
  windowStart : Nat
  hits : List JsString
  deriving DecidableEq, Repr

/-- Modelled from the spec: the window of the `express-rate-limit` middleware
(spec 3, a per-origin counter reset on a time window). A request arriving
`windowMs` or more after the window started opens a new window with all counters
reset. -/
def RateLimit.roll (rl : RateLimit) (st : LimiterState) (now : Nat) : LimiterState :=
  if now < st.windowStart + rl.windowMs then st
  else ⟨st.windowStart + (now - st.windowStart) / rl.windowMs * rl.windowMs, []⟩

/-- Modelled from the spec: the `express-rate-limit` middleware (spec 4.3,
`allow(originId) -> bool`). Every request is counted for its origin; it is let
through when the origin's count in the window, this request included, does not
exceed `max`. -/
def RateLimit.allow (rl : RateLimit) (st : LimiterState) (ip : JsString) (now : Nat) :
    Bool × LimiterState :=
  let st1 := rl.roll st now
  (decide ((ip :: st1.hits).count ip ≤ rl.max), ⟨st1.windowStart, ip :: st1.hits⟩)

/-- Lines 79-84: `new RateLimit({windowMs: FIFTEEN_MIN, max: 200})`. -/
def limiter : RateLimit := { windowMs := FIFTEEN_MIN, max := 200 }

/-- An inbound `POST /`: origin, body, how the RPC promises settle for it and
when its steps run. -/
structure Request where
  ip : JsString
  body : JsString
  rpc : Rpc
  clock : Clock

/-- The process-wide state: the limiter's store and the abuse cache. -/
structure ServerState where
  limiter : LimiterState
  cache : Cache
  deriving DecidableEq, Repr

/-- Lines 79-147: the two handlers registered on `POST /`, in order: the limiter,
which answers itself on rejection and otherwise calls `next()`, then the
fauceting handler. -/
def post (cfg : Config) (s : ServerState) (req : Request) : ServerState × Outcome :=
  match limiter.allow s.limiter req.ip req.clock.request with
  | (true, ls) =>
    let out := handler cfg req.rpc req.clock s.cache req.body
    (⟨ls, out.cache⟩, out)
  | (false, ls) => (⟨ls, s.cache⟩, ⟨.tooManyRequests, s.cache, []⟩)

/-- The state after serving a list of requests one after the other. -/
def serve (cfg : Config) (s : ServerState) (reqs : List Request) : ServerState :=
  reqs.foldl (fun st r => (post cfg st r).1) s

/-! ## Inputs of the worked examples -/

/-- A 42-character, mixed-case, prefixed address. -/
def exampleAddress : JsString := js "0xAbCdEf0123456789aBcDeF0123456789AbCdEf01"

/-- The same address as a client may paste it, without the prefix. -/
def exampleBareAddress : JsString := js "AbCdEf0123456789aBcDeF0123456789AbCdEf01"

/-- A configuration with some faucet address. -/
def exampleConfig : Config := { address := js "0x00000000000000000000000000000000000000fa" }

/-- A node on which every call succeeds, reporting the given balance and gas
price. -/
def exampleRpc (balance price : Nat) : Rpc :=
  { getBalance := fun _ _ => .ok balance
    gasPrice := .ok price
    sendTransaction := fun _ => .ok (js "0x7e57") }

/-- A request handled at time 1000 whose callbacks run at 1200 and 1500. -/
def exampleClock : Clock := { request := 1000, balance := 1200, sent := 1500 }

/-- The empty cache of a freshly started process. -/
def emptyCache : Cache := { entries := [] }

/-- A freshly started process: no request counted, nothing cached. -/
def freshServer : ServerState :=
  { limiter := { windowStart := 0, hits := [] }, cache := emptyCache }

/-- A request for the example address from one origin. -/
def exampleRequest : Request :=
  { ip := js "203.0.113.7", body := exampleAddress, rpc := exampleRpc 0 1000000000,
    clock := exampleClock }

/-! # Theorems -/

/-! ## Constants, evaluated -/

theorem TEN_ETH_eq : TEN_ETH = 10 ^ 19 := by decide

theorem FAUCET_AMOUNT_eq : FAUCET_AMOUNT = .fin (10 ^ 18) := by decide

theorem faucetAmountBN_eq : BN (toDecimalString FAUCET_AMOUNT) = 10 ^ 18 := by decide

theorem FIFTEEN_MIN_eq : FIFTEEN_MIN = 900000 := by decide

theorem js_0x : js "0x" = [48, 120] := by decide

/-! ## The cache model -/

theorem lookup_filter_ne (k key : JsString) (h : k ≠ key) (l : List (JsString × CacheRecord)) :
    (l.filter (fun kv => kv.1 ≠ key)).lookup k = l.lookup k := by
  induction l with
  | nil => rfl
  | cons hd tl ih =>
    obtain ⟨k1, r1⟩ := hd
    by_cases h1 : k1 = key
    · subst h1
      have hk : (k == k1) = false := by simpa using h
      simp only [decide_not] at ih
      simp [List.filter_cons, List.lookup_cons, hk, ih]
    · by_cases h2 : k = k1
      · subst h2
        simp [List.filter_cons, List.lookup_cons, h1]
      · have hk : (k == k1) = false := by simpa using h2
        simp only [decide_not] at ih
        simp [List.filter_cons, List.lookup_cons, h1, hk, ih]

theorem Cache.lookup_put_same (c : Cache) (key : JsString) (v ttl now : Nat) :
    (c.put key v ttl now).entries.lookup key = some ⟨v, now + ttl⟩ := by
  simp [Cache.put, List.lookup_cons]

theorem Cache.lookup_put_other (c : Cache) (key k : JsString) (v ttl now : Nat) (h : k ≠ key) :
    (c.put key v ttl now).entries.lookup k = c.entries.lookup k := by
  have hk : (k == key) = false := by simpa using h
  have hf := lookup_filter_ne k key h c.entries
  simp only [decide_not] at hf
  simp [Cache.put, List.lookup_cons, hk, hf]

theorem Cache.get_put_same (c : Cache) (key : JsString) (v ttl now t : Nat) :
    (c.put key v ttl now).get key t = if t ≤ now + ttl then some v else none := by
  simp [Cache.get, Cache.lookup_put_same]

theorem Cache.get_put_other (c : Cache) (key k : JsString) (v ttl now t : Nat) (h : k ≠ key) :
    (c.put key v ttl now).get k t = c.get k t := by
  simp [Cache.get, Cache.lookup_put_other c key k v ttl now h]

/-! ## Address normalisation -/

theorem targetAddress_take (s : JsString) : (targetAddress s).take 2 = js "0x" := by
  unfold targetAddress
  split
  · simp [js_0x]
  · rename_i h
    simpa using h

theorem parseAddress_ok_iff (s a : JsString) :
    parseAddress s = .ok a ↔ a = targetAddress s ∧ (targetAddress s).length = 42 := by
  unfold parseAddress
  split
  · rename_i h
    simp [h]
  · rename_i h
    have h42 : (targetAddress s).length = 42 := by simpa using h
    simp [h42, eq_comm]

/-! ## The handler, branch by branch -/

theorem cachedGreedy_eq_true (o : Option Nat) :
    cachedGreedy o = true ↔ ∃ v, o = some v ∧ 10 ^ 19 < v := by
  cases o <;> simp [cachedGreedy, TEN_ETH_eq]

theorem handler_parse_error (cfg : Config) (rpc : Rpc) (clock : Clock) (cache : Cache)
    (body e : JsString) (h : parseAddress body = .error e) :
    handler cfg rpc clock cache body = ⟨didError e, cache, []⟩ := by
  simp [handler, h]

theorem handler_cached_greedy (cfg : Config) (rpc : Rpc) (clock : Clock) (cache : Cache)
    (body A : JsString) (hA : parseAddress body = .ok A)
    (h : cachedGreedy (cache.get A clock.request) = true) :
    handler cfg rpc clock cache body = ⟨didError greedy, cache, []⟩ := by
  simp [handler, hA, h]

theorem handler_balance_error (cfg : Config) (rpc : Rpc) (clock : Clock) (cache : Cache)
    (body A e : JsString) (hA : parseAddress body = .ok A)
    (h : cachedGreedy (cache.get A clock.request) = false)
    (hb : rpc.getBalance A (js "pending") = .error e) :
    handler cfg rpc clock cache body =
      ⟨didError e, cache, [.getBalance A (js "pending")]⟩ := by
  simp [handler, hA, h, hb]

theorem handler_live_greedy (cfg : Config) (rpc : Rpc) (clock : Clock) (cache : Cache)
    (body A : JsString) (b : Nat) (hA : parseAddress body = .ok A)
    (h : cachedGreedy (cache.get A clock.request) = false)
    (hb : rpc.getBalance A (js "pending") = .ok b) (hgt : 10 ^ 19 < b) :
    handler cfg rpc clock cache body =
      ⟨didError greedy, cache.put A b FIFTEEN_MIN clock.balance,
        [.getBalance A (js "pending")]⟩ := by
  have hgt1 : TEN_ETH < b := by rw [TEN_ETH_eq]; exact hgt
  simp [handler, hA, h, hb, hgt1]

theorem handler_price_error (cfg : Config) (rpc : Rpc) (clock : Clock) (cache : Cache)
    (body A e : JsString) (b : Nat) (hA : parseAddress body = .ok A)
    (h : cachedGreedy (cache.get A clock.request) = false)
    (hb : rpc.getBalance A (js "pending") = .ok b) (hle : b ≤ 10 ^ 19)
    (hp : rpc.gasPrice = .error e) :
    handler cfg rpc clock cache body =
      ⟨didError e, cache, [.getBalance A (js "pending"), .gasPrice]⟩ := by
  have hle1 : ¬ TEN_ETH < b := by rw [TEN_ETH_eq]; omega
  simp [handler, hA, h, hb, hle1, hp]

theorem handler_send_error (cfg : Config) (rpc : Rpc) (clock : Clock) (cache : Cache)
    (body A e : JsString) (b p : Nat) (hA : parseAddress body = .ok A)
    (h : cachedGreedy (cache.get A clock.request) = false)
    (hb : rpc.getBalance A (js "pending") = .ok b) (hle : b ≤ 10 ^ 19)
    (hp : rpc.gasPrice = .ok p)
    (hs : rpc.sendTransaction (mkTransaction cfg A p) = .error e) :
    handler cfg rpc clock cache body =
      ⟨didError e, cache,
        [.getBalance A (js "pending"), .gasPrice, .sendTransaction (mkTransaction cfg A p)]⟩ := by
  have hle1 : ¬ TEN_ETH < b := by rw [TEN_ETH_eq]; omega
  simp [handler, hA, h, hb, hle1, hp, hs]

theorem handler_sent (cfg : Config) (rpc : Rpc) (clock : Clock) (cache : Cache)
    (body A r : JsString) (b p : Nat) (hA : parseAddress body = .ok A)
    (h : cachedGreedy (cache.get A clock.request) = false)
    (hb : rpc.getBalance A (js "pending") = .ok b) (hle : b ≤ 10 ^ 19)
    (hp : rpc.gasPrice = .ok p)
    (hs : rpc.sendTransaction (mkTransaction cfg A p) = .ok r) :
    handler cfg rpc clock cache body =
      ⟨.send r, cache.put A (b + 10 ^ 18) FIFTEEN_MIN clock.sent,
        [.getBalance A (js "pending"), .gasPrice, .sendTransaction (mkTransaction cfg A p)]⟩ := by
  have hle1 : ¬ TEN_ETH < b := by rw [TEN_ETH_eq]; omega
  simp [handler, hA, h, hb, hle1, hp, hs, faucetAmountBN_eq]

/-- Every request ends in exactly one of seven ways: parse error, cached greed,
failed balance query, live greed, failed price query, failed submission,
submission. -/
theorem handler_cases (cfg : Config) (rpc : Rpc) (clock : Clock) (cache : Cache)
    (body : JsString) :
    (∃ e, parseAddress body = .error e ∧
      handler cfg rpc clock cache body = ⟨didError e, cache, []⟩) ∨
    (∃ A, parseAddress body = .ok A ∧ cachedGreedy (cache.get A clock.request) = true ∧
      handler cfg rpc clock cache body = ⟨didError greedy, cache, []⟩) ∨
    (∃ A e, parseAddress body = .ok A ∧ cachedGreedy (cache.get A clock.request) = false ∧
      rpc.getBalance A (js "pending") = .error e ∧
      handler cfg rpc clock cache body =
        ⟨didError e, cache, [.getBalance A (js "pending")]⟩) ∨
    (∃ A b, parseAddress body = .ok A ∧ cachedGreedy (cache.get A clock.request) = false ∧
      rpc.getBalance A (js "pending") = .ok b ∧ 10 ^ 19 < b ∧
      handler cfg rpc clock cache body =
        ⟨didError greedy, cache.put A b FIFTEEN_MIN clock.balance,
          [.getBalance A (js "pending")]⟩) ∨
    (∃ A b e, parseAddress body = .ok A ∧ cachedGreedy (cache.get A clock.request) = false ∧
      rpc.getBalance A (js "pending") = .ok b ∧ b ≤ 10 ^ 19 ∧ rpc.gasPrice = .error e ∧
      handler cfg rpc clock cache body =
        ⟨didError e, cache, [.getBalance A (js "pending"), .gasPrice]⟩) ∨
    (∃ A b p e, parseAddress body = .ok A ∧
      cachedGreedy (cache.get A clock.request) = false ∧
      rpc.getBalance A (js "pending") = .ok b ∧ b ≤ 10 ^ 19 ∧ rpc.gasPrice = .ok p ∧
      rpc.sendTransaction (mkTransaction cfg A p) = .error e ∧
      handler cfg rpc clock cache body =
        ⟨didError e, cache,
          [.getBalance A (js "pending"), .gasPrice,
            .sendTransaction (mkTransaction cfg A p)]⟩) ∨
    (∃ A b p r, parseAddress body = .ok A ∧
      cachedGreedy (cache.get A clock.request) = false ∧
      rpc.getBalance A (js "pending") = .ok b ∧ b ≤ 10 ^ 19 ∧ rpc.gasPrice = .ok p ∧
      rpc.sendTransaction (mkTransaction cfg A p) = .ok r ∧
      handler cfg rpc clock cache body =
        ⟨.send r, cache.put A (b + 10 ^ 18) FIFTEEN_MIN clock.sent,
          [.getBalance A (js "pending"), .gasPrice,
            .sendTransaction (mkTransaction cfg A p)]⟩) := by
  cases hA : parseAddress body with
  | error e => exact Or.inl ⟨e, rfl, handler_parse_error cfg rpc clock cache body e hA⟩
  | ok A =>
    right
    cases hg : cachedGreedy (cache.get A clock.request) with
    | true => exact Or.inl ⟨A, rfl, hg, handler_cached_greedy cfg rpc clock cache body A hA hg⟩
    | false =>
      right
      cases hb : rpc.getBalance A (js "pending") with
      | error e =>
        exact Or.inl ⟨A, e, rfl, hg, hb,
          handler_balance_error cfg rpc clock cache body A e hA hg hb⟩
      | ok b =>
        right
        by_cases hgt : 10 ^ 19 < b
        · exact Or.inl ⟨A, b, rfl, hg, hb, hgt,
            handler_live_greedy cfg rpc clock cache body A b hA hg hb hgt⟩
        · right
          have hle : b ≤ 10 ^ 19 := Nat.le_of_not_lt hgt
          cases hp : rpc.gasPrice with
          | error e =>
            exact Or.inl ⟨A, b, e, rfl, hg, hb, hle, rfl,
              handler_price_error cfg rpc clock cache body A e b hA hg hb hle hp⟩
          | ok p =>
            right
            cases hs : rpc.sendTransaction (mkTransaction cfg A p) with
            | error e =>
              exact Or.inl ⟨A, b, p, e, rfl, hg, hb, hle, rfl, hs,
                handler_send_error cfg rpc clock cache body A e b p hA hg hb hle hp hs⟩
            | ok r =>
              exact Or.inr ⟨A, b, p, r, rfl, hg, hb, hle, rfl, hs,
                handler_sent cfg rpc clock cache body A r b p hA hg hb hle hp hs⟩

/-! ## The claims -/

/-- C1: for a validated target address `A` for which the cache holds, at the time
of the request, an amount strictly greater than the ceiling `10^19`, the handler
answers with the greed error `'User is greedy.'`, makes no RPC call at all (the
trace is empty: no `getBalance`, no `gasPrice`, no `sendTransaction`) and leaves
the cache as it was. -/
theorem cached_greed_makes_no_rpc_call (cfg : Config) (rpc : Rpc) (clock : Clock)
    (cache : Cache) (body A : JsString) (v : Nat)
    (hA : parseAddress body = .ok A)
    (hget : cache.get A clock.request = some v) (hv : 10 ^ 19 < v) :
    handler cfg rpc clock cache body =
      { response := .json 500 (js "User is greedy."), cache := cache, trace := [] } := by
  have hg : cachedGreedy (cache.get A clock.request) = true :=
    (cachedGreedy_eq_true _).2 ⟨v, hget, hv⟩
  exact handler_cached_greedy cfg rpc clock cache body A hA hg

/-- Worked example for C1: the example address cached at `10^19 + 1`, whatever
the node would answer. -/
theorem cached_greed_makes_no_rpc_call_witness :
    parseAddress exampleAddress = .ok exampleAddress ∧
    (Cache.mk [(exampleAddress, ⟨10 ^ 19 + 1, 5000⟩)]).get exampleAddress exampleClock.request
      = some (10 ^ 19 + 1) ∧
    handler exampleConfig (exampleRpc 0 1000000000) exampleClock
        (Cache.mk [(exampleAddress, ⟨10 ^ 19 + 1, 5000⟩)]) exampleAddress =
      { response := .json 500 (js "User is greedy."),
        cache := Cache.mk [(exampleAddress, ⟨10 ^ 19 + 1, 5000⟩)], trace := [] } :=
  ⟨rfl, by decide,
    cached_greed_makes_no_rpc_call exampleConfig (exampleRpc 0 1000000000) exampleClock
      (Cache.mk [(exampleAddress, ⟨10 ^ 19 + 1, 5000⟩)]) exampleAddress exampleAddress
      (10 ^ 19 + 1) rfl (by decide) (by decide)⟩

/-- C2: for a validated address `A` that the cache check does not reject, when
`getBalance(A, 'pending')` resolves to a balance `b > 10^19` the handler answers
with the greed error, its only RPC call is that balance query (no transaction is
submitted), and the cache afterwards is the old one with the entry of `A` set to
exactly `b`, expiring `900000` ms (15 minutes) after the write. Any later request
for `A` arriving before that expiry is answered with the greed error from the
cache check, with no RPC call and no further change of the cache. -/
theorem live_greed_is_cached_and_blocks (cfg : Config) (rpc rpc2 : Rpc) (clock clock2 : Clock)
    (cache : Cache) (body body2 A : JsString) (b : Nat)
    (hA : parseAddress body = .ok A)
    (hpass : ∀ v, cache.get A clock.request = some v → v ≤ 10 ^ 19)
    (hb : rpc.getBalance A (js "pending") = .ok b) (hgt : 10 ^ 19 < b)
    (hA2 : parseAddress body2 = .ok A)
    (ht : clock2.request < clock.balance + 900000) :
    (handler cfg rpc clock cache body).response = .json 500 (js "User is greedy.") ∧
    (handler cfg rpc clock cache body).trace = [.getBalance A (js "pending")] ∧
    (handler cfg rpc clock cache body).cache = cache.put A b FIFTEEN_MIN clock.balance ∧
    (handler cfg rpc clock cache body).cache.entries.lookup A
      = some ⟨b, clock.balance + 900000⟩ ∧
    handler cfg rpc2 clock2 (handler cfg rpc clock cache body).cache body2 =
      { response := .json 500 (js "User is greedy."),
        cache := (handler cfg rpc clock cache body).cache, trace := [] } := by
  have hg : cachedGreedy (cache.get A clock.request) = false := by
    cases hc : cachedGreedy (cache.get A clock.request) with
    | false => rfl
    | true =>
      obtain ⟨v, hv, hlt⟩ := (cachedGreedy_eq_true _).1 hc
      have := hpass v hv
      omega
  have h1 := handler_live_greedy cfg rpc clock cache body A b hA hg hb hgt
  have hget : (cache.put A b FIFTEEN_MIN clock.balance).get A clock2.request = some b := by
    rw [Cache.get_put_same, FIFTEEN_MIN_eq, if_pos (Nat.le_of_lt ht)]
  have hg2 : cachedGreedy ((cache.put A b FIFTEEN_MIN clock.balance).get A clock2.request)
      = true := (cachedGreedy_eq_true _).2 ⟨b, hget, hgt⟩
  rw [h1]
  refine ⟨rfl, rfl, rfl, ?_, ?_⟩
  · rw [Cache.lookup_put_same, FIFTEEN_MIN_eq]
  · exact handler_cached_greedy cfg rpc2 clock2 _ body2 A hA2 hg2

/-- Worked example for C2: an empty cache, a live balance of `10^19 + 1`, and a
second request (without the prefix) one minute later. -/
theorem live_greed_is_cached_and_blocks_witness :
    (handler exampleConfig (exampleRpc (10 ^ 19 + 1) 1000000000) exampleClock emptyCache
        exampleAddress).cache
      = Cache.mk [(exampleAddress, ⟨10 ^ 19 + 1, 901200⟩)] ∧
    handler exampleConfig (exampleRpc 0 1000000000) ⟨61200, 61300, 61400⟩
        (handler exampleConfig (exampleRpc (10 ^ 19 + 1) 1000000000) exampleClock emptyCache
          exampleAddress).cache exampleBareAddress =
      { response := .json 500 (js "User is greedy."),
        cache := (handler exampleConfig (exampleRpc (10 ^ 19 + 1) 1000000000) exampleClock
          emptyCache exampleAddress).cache,
        trace := [] } :=
  ⟨by decide,
    (live_greed_is_cached_and_blocks exampleConfig (exampleRpc (10 ^ 19 + 1) 1000000000)
      (exampleRpc 0 1000000000) exampleClock ⟨61200, 61300, 61400⟩ emptyCache exampleAddress
      exampleBareAddress exampleAddress (10 ^ 19 + 1) rfl
      (by intro v h; simp [Cache.get, emptyCache] at h) rfl (by decide) rfl
      (by decide)).2.2.2.2⟩

/-- C3: when a request for the validated address `A` ends in a successful
dispense (the response is the transaction result) and the live balance read
before sending was `B`, the cache entry of `A` afterwards is exactly
`B + 10^18`, written with a 15-minute (`900000` ms) time-to-live: a lookup of
`A` at any time before the expiry returns `B + 10^18`, and a lookup after the
expiry returns absent. -/
theorem dispense_caches_balance_plus_faucet_amount (cfg : Config) (rpc : Rpc) (clock : Clock)
    (cache : Cache) (body A r : JsString) (B : Nat)
    (hA : parseAddress body = .ok A)
    (hB : rpc.getBalance A (js "pending") = .ok B)
    (hsent : (handler cfg rpc clock cache body).response = .send r) :
    (handler cfg rpc clock cache body).cache.entries.lookup A
      = some ⟨B + 10 ^ 18, clock.sent + 900000⟩ ∧
    (∀ t, t < clock.sent + 900000 →
      (handler cfg rpc clock cache body).cache.get A t = some (B + 10 ^ 18)) ∧
    (∀ t, clock.sent + 900000 < t →
      (handler cfg rpc clock cache body).cache.get A t = none) := by
  rcases handler_cases cfg rpc clock cache body with
    ⟨e, _, h⟩ | ⟨A1, _, _, h⟩ | ⟨A1, e, _, _, _, h⟩ | ⟨A1, b, _, _, _, _, h⟩ |
    ⟨A1, b, e, _, _, _, _, _, h⟩ | ⟨A1, b, p, e, _, _, _, _, _, _, h⟩ |
    ⟨A1, b, p, r1, hA1, _, hb, _, _, _, h⟩
  all_goals rw [h] at hsent
  all_goals try (simp [didError] at hsent; done)
  rw [hA] at hA1
  cases hA1
  rw [hB] at hb
  cases hb
  rw [h]
  refine ⟨?_, ?_, ?_⟩
  · rw [Cache.lookup_put_same, FIFTEEN_MIN_eq]
  · intro t ht
    rw [Cache.get_put_same, FIFTEEN_MIN_eq, if_pos (Nat.le_of_lt ht)]
  · intro t ht
    rw [Cache.get_put_same, FIFTEEN_MIN_eq, if_neg (Nat.not_le_of_lt ht)]

/-- Worked example for C3: the example address with a live balance of `5`, the
dispense recorded at time 1500. -/
theorem dispense_caches_balance_plus_faucet_amount_witness :
    (handler exampleConfig (exampleRpc 5 1000000000) exampleClock emptyCache
        exampleAddress).response = .send (js "0x7e57") ∧
    (handler exampleConfig (exampleRpc 5 1000000000) exampleClock emptyCache
        exampleAddress).cache.get exampleAddress 901499 = some 1000000000000000005 ∧
    (handler exampleConfig (exampleRpc 5 1000000000) exampleClock emptyCache
        exampleAddress).cache.get exampleAddress 901501 = none :=
  have h := dispense_caches_balance_plus_faucet_amount exampleConfig (exampleRpc 5 1000000000)
    exampleClock emptyCache exampleAddress exampleAddress (js "0x7e57") 5 rfl rfl (by decide)
  ⟨by decide, h.2.1 901499 (by decide), h.2.2 901501 (by decide)⟩

/-- C4: every transaction the handler passes to `sendTransaction` has `to` equal
to the validated target address, `from` equal to the configured faucet address,
`value` equal to exactly `10^18` and `data` equal to the empty string, whatever
the target, the observed balance and the observed gas price. -/
theorem submitted_transaction_fields (cfg : Config) (rpc : Rpc) (clock : Clock)
    (cache : Cache) (body : JsString) (tx : Transaction)
    (hmem : RpcCall.sendTransaction tx ∈ (handler cfg rpc clock cache body).trace) :
    parseAddress body = .ok tx.to_ ∧ tx.from_ = cfg.address ∧
      tx.value = .fin (10 ^ 18) ∧ tx.data = [] := by
  rcases handler_cases cfg rpc clock cache body with
    ⟨e, _, h⟩ | ⟨A1, _, _, h⟩ | ⟨A1, e, _, _, _, h⟩ | ⟨A1, b, _, _, _, _, h⟩ |
    ⟨A1, b, e, _, _, _, _, _, h⟩ | ⟨A1, b, p, e, hA1, _, _, _, _, _, h⟩ |
    ⟨A1, b, p, r1, hA1, _, _, _, _, _, h⟩
  all_goals rw [h] at hmem
  all_goals simp at hmem
  all_goals subst hmem
  all_goals exact ⟨hA1, rfl, FAUCET_AMOUNT_eq, rfl⟩

/-- Worked example for C4: the transaction submitted for the example address. -/
theorem submitted_transaction_fields_witness :
    RpcCall.sendTransaction
        { to_ := exampleAddress, from_ := exampleConfig.address, value := .fin (10 ^ 18),
          data := [], gasPrice := .fin 3000000000 } ∈
      (handler exampleConfig (exampleRpc 5 3000000000) exampleClock emptyCache
        exampleBareAddress).trace ∧
    parseAddress exampleBareAddress = .ok exampleAddress :=
  ⟨by decide,
    (submitted_transaction_fields exampleConfig (exampleRpc 5 3000000000) exampleClock
      emptyCache exampleBareAddress
      { to_ := exampleAddress, from_ := exampleConfig.address, value := .fin (10 ^ 18),
        data := [], gasPrice := .fin 3000000000 } (by decide)).1⟩

/-! ## The gas price -/

theorem Number_exact (p : Nat) (hp : p ≤ 2 ^ 53) : Number p = .fin p := by
  rcases Nat.lt_or_ge p (2 ^ 53) with h | h
  · unfold Number toNumber
    rw [if_pos h]
  · have : p = 2 ^ 53 := Nat.le_antisymm hp h
    subst this
    decide

theorem floor_le_adjustedPrice (p : Nat) : GAS_FLOOR.le (adjustedPrice p) = true := by
  unfold adjustedPrice
  cases Number p with
  | fin n => simp [JsNumber.max, JsNumber.le, GAS_FLOOR]
  | inf => rfl

/-- C5, the claim as stated fails: a node reporting the gas price
`9007199254740993` (`2^53 + 1`) has `9007199254740992` submitted, which is not
`max(9007199254740993, 2 * 10^9)`. -/
theorem gas_price_rounded_counterexample :
    (exampleRpc 0 9007199254740993).gasPrice = .ok 9007199254740993 ∧
    (handler exampleConfig (exampleRpc 0 9007199254740993) exampleClock emptyCache
        exampleAddress).trace =
      [.getBalance exampleAddress (js "pending"), .gasPrice,
        .sendTransaction
          { to_ := exampleAddress, from_ := exampleConfig.address, value := .fin (10 ^ 18),
            data := [], gasPrice := .fin 9007199254740992 }] ∧
    JsNumber.fin 9007199254740992 ≠ .fin (Nat.max 9007199254740993 (2 * 10 ^ 9)) := by
  refine ⟨rfl, ?_, ?_⟩ <;> decide

/-- C5, amended: the `gasPrice` field of every submitted transaction is
`Math.max(Number(p), 2e9)` for the price `p` the node reported; it is always at
least `2 * 10^9`, and for every reported `p ≤ 2^53` (where `Number(p)` is exact)
it equals `max(p, 2 * 10^9)`. -/
theorem gas_price_floor (cfg : Config) (rpc : Rpc) (clock : Clock) (cache : Cache)
    (body : JsString) (tx : Transaction) (p : Nat)
    (hp : rpc.gasPrice = .ok p)
    (hmem : RpcCall.sendTransaction tx ∈ (handler cfg rpc clock cache body).trace) :
    tx.gasPrice = JsNumber.max (Number p) (.fin 2000000000) ∧
    JsNumber.le (.fin (2 * 10 ^ 9)) tx.gasPrice = true ∧
    (p ≤ 2 ^ 53 → tx.gasPrice = .fin (Nat.max p (2 * 10 ^ 9))) := by
  have key : tx.gasPrice = adjustedPrice p := by
    rcases handler_cases cfg rpc clock cache body with
      ⟨e, _, h⟩ | ⟨A1, _, _, h⟩ | ⟨A1, e, _, _, _, h⟩ | ⟨A1, b, _, _, _, _, h⟩ |
      ⟨A1, b, e, _, _, _, _, _, h⟩ | ⟨A1, b, p1, e, _, _, _, _, hp1, _, h⟩ |
      ⟨A1, b, p1, r1, _, _, _, _, hp1, _, h⟩
    all_goals rw [h] at hmem
    all_goals simp at hmem
    all_goals subst hmem
    all_goals rw [hp] at hp1
    all_goals cases hp1
    all_goals rfl
  refine ⟨key, ?_, ?_⟩
  · rw [key]
    exact floor_le_adjustedPrice p
  · intro hle
    rw [key, adjustedPrice, Number_exact p hle]
    rfl

/-- Worked example for C5: a reported `10^9` is submitted as `2 * 10^9`. -/
theorem gas_price_floor_witness :
    RpcCall.sendTransaction
        { to_ := exampleAddress, from_ := exampleConfig.address, value := .fin (10 ^ 18),
          data := [], gasPrice := .fin 2000000000 } ∈
      (handler exampleConfig (exampleRpc 0 1000000000) exampleClock emptyCache
        exampleAddress).trace ∧
    JsNumber.fin 2000000000 = .fin (Nat.max 1000000000 (2 * 10 ^ 9)) :=
  ⟨by decide,
    (gas_price_floor exampleConfig (exampleRpc 0 1000000000) exampleClock emptyCache
      exampleAddress
      { to_ := exampleAddress, from_ := exampleConfig.address, value := .fin (10 ^ 18),
        data := [], gasPrice := .fin 2000000000 } 1000000000 rfl (by decide)).2.2
      (by decide)⟩

/-! ## Address validation -/

/-- C6: for every raw string `s`, normalisation (prepend `'0x'` unless `s` starts
with it, then require length 42) either fails with the address parse error or
yields a string of exactly 42 code units beginning with `'0x'`; nothing of any
other length or prefix is accepted, and a 42-character `'0x'`-prefixed input is
accepted unchanged. -/
theorem parseAddress_shape (s : JsString) :
    (parseAddress s = .error (js "Address parse failure - " ++ targetAddress s) ∨
      parseAddress s = .ok (targetAddress s)) ∧
    (∀ a, parseAddress s = .ok a → a.length = 42 ∧ a.take 2 = js "0x") ∧
    (s.length = 42 → s.take 2 = js "0x" → parseAddress s = .ok s) := by
  refine ⟨?_, ?_, ?_⟩
  · unfold parseAddress
    split
    · exact Or.inl rfl
    · exact Or.inr rfl
  · intro a h
    obtain ⟨rfl, hlen⟩ := (parseAddress_ok_iff s a).1 h
    exact ⟨hlen, targetAddress_take s⟩
  · intro hlen hpre
    have ht : targetAddress s = s := by simp [targetAddress, hpre]
    exact (parseAddress_ok_iff s s).2 ⟨ht.symm, by rw [ht]; exact hlen⟩

/-- Worked example for C6: the mixed-case example address is accepted as it is,
and its first 41 characters are refused. -/
theorem parseAddress_shape_witness :
    parseAddress exampleAddress = .ok exampleAddress ∧
    parseAddress (exampleAddress.take 41) =
      .error (js "Address parse failure - " ++ exampleAddress.take 41) :=
  ⟨(parseAddress_shape exampleAddress).2.2 (by decide) (by decide), rfl⟩

/-! ## The ceiling -/

/-- C7, the claim as stated fails: a target whose live balance is exactly
`10^19` is served (a transaction is submitted and its result returned), with an
empty cache and also with a cache that holds exactly `10^19` for it. -/
theorem balance_at_ceiling_counterexample :
    (exampleRpc (10 ^ 19) 1000000000).getBalance exampleAddress (js "pending")
      = .ok (10 ^ 19) ∧
    handler exampleConfig (exampleRpc (10 ^ 19) 1000000000) exampleClock emptyCache
        exampleAddress =
      { response := .send (js "0x7e57"),
        cache := Cache.mk [(exampleAddress, ⟨11 * 10 ^ 18, 901500⟩)],
        trace := [.getBalance exampleAddress (js "pending"), .gasPrice,
          .sendTransaction
            { to_ := exampleAddress, from_ := exampleConfig.address, value := .fin (10 ^ 18),
              data := [], gasPrice := .fin 2000000000 }] } ∧
    (Cache.mk [(exampleAddress, ⟨10 ^ 19, 5000⟩)]).get exampleAddress exampleClock.request
      = some (10 ^ 19) ∧
    (handler exampleConfig (exampleRpc (10 ^ 19) 1000000000) exampleClock
        (Cache.mk [(exampleAddress, ⟨10 ^ 19, 5000⟩)]) exampleAddress).response
      = .send (js "0x7e57") := by
  refine ⟨rfl, ?_, ?_, ?_⟩ <;> decide

/-- C7, amended: for every admitted request whose target address has a cached
balance or a live balance strictly greater than the ceiling `10^19`, the handler
answers with the greed error and submits no transaction. -/
theorem balance_above_ceiling_is_refused (cfg : Config) (rpc : Rpc) (clock : Clock)
    (cache : Cache) (body A : JsString) (b : Nat)
    (hA : parseAddress body = .ok A)
    (hbal : cache.get A clock.request = some b ∨ rpc.getBalance A (js "pending") = .ok b)
    (hgt : 10 ^ 19 < b) :
    (handler cfg rpc clock cache body).response = .json 500 (js "User is greedy.") ∧
    ∀ tx, RpcCall.sendTransaction tx ∉ (handler cfg rpc clock cache body).trace := by
  cases hg : cachedGreedy (cache.get A clock.request) with
  | true =>
    rw [handler_cached_greedy cfg rpc clock cache body A hA hg]
    exact ⟨rfl, by simp⟩
  | false =>
    rcases hbal with hc | hl
    · have : cachedGreedy (cache.get A clock.request) = true :=
        (cachedGreedy_eq_true _).2 ⟨b, hc, hgt⟩
      rw [hg] at this
      cases this
    · rw [handler_live_greedy cfg rpc clock cache body A b hA hg hl hgt]
      exact ⟨rfl, by simp⟩

/-- Worked example for C7: a live balance of `10^19 + 1` is refused. -/
theorem balance_above_ceiling_is_refused_witness :
    (exampleRpc (10 ^ 19 + 1) 1000000000).getBalance exampleAddress (js "pending")
      = .ok (10 ^ 19 + 1) ∧
    (handler exampleConfig (exampleRpc (10 ^ 19 + 1) 1000000000) exampleClock emptyCache
        exampleAddress).response = .json 500 (js "User is greedy.") :=
  ⟨rfl,
    (balance_above_ceiling_is_refused exampleConfig (exampleRpc (10 ^ 19 + 1) 1000000000)
      exampleClock emptyCache exampleAddress exampleAddress (10 ^ 19 + 1) rfl (Or.inr rfl)
      (by decide)).1⟩

/-! ## What a request may change in the cache -/

theorem parseAddress_error_of_length_41 (s : JsString) (h : s.length = 41) :
    parseAddress s = .error (js "Address parse failure - " ++ targetAddress s) := by
  have hlen : (targetAddress s).length ≠ 42 := by
    unfold targetAddress
    split
    · simp [js_0x, h]
    · simp [h]
  simp [parseAddress, hlen]

/-- C8: the cache after a request is the cache before it, except in two
outcomes: a live balance above the ceiling (the entry of the target is set to
that balance) and a successful submission (the entry of the target is set to the
balance plus `10^18`). It is left exactly as it was when validation fails (so
for every raw string of length 41, which also makes no RPC call), when the
cache check rejects, and when `getBalance`, `gasPrice` or `sendTransaction`
fails; and no outcome changes the entry of an address other than the target. -/
theorem cache_changes_only_on_live_greed_or_dispense (cfg : Config) (rpc : Rpc)
    (clock : Clock) (cache : Cache) (body : JsString) :
    ((handler cfg rpc clock cache body).cache = cache ∨
      (∃ A b, parseAddress body = .ok A ∧ rpc.getBalance A (js "pending") = .ok b ∧
        10 ^ 19 < b ∧
        (handler cfg rpc clock cache body).response = .json 500 (js "User is greedy.") ∧
        (handler cfg rpc clock cache body).cache = cache.put A b 900000 clock.balance) ∨
      (∃ A b r, parseAddress body = .ok A ∧ rpc.getBalance A (js "pending") = .ok b ∧
        (handler cfg rpc clock cache body).response = .send r ∧
        (handler cfg rpc clock cache body).cache
          = cache.put A (b + 10 ^ 18) 900000 clock.sent)) ∧
    (∀ e, parseAddress body = .error e →
      handler cfg rpc clock cache body = ⟨.json 500 e, cache, []⟩) ∧
    (body.length = 41 →
      handler cfg rpc clock cache body =
        ⟨.json 500 (js "Address parse failure - " ++ targetAddress body), cache, []⟩) ∧
    (∀ A v, parseAddress body = .ok A → cache.get A clock.request = some v → 10 ^ 19 < v →
      (handler cfg rpc clock cache body).cache = cache) ∧
    (∀ A e, parseAddress body = .ok A → rpc.getBalance A (js "pending") = .error e →
      (handler cfg rpc clock cache body).cache = cache) ∧
    (∀ e, rpc.gasPrice = .error e →
      RpcCall.gasPrice ∈ (handler cfg rpc clock cache body).trace →
      (handler cfg rpc clock cache body).cache = cache) ∧
    (∀ tx e, rpc.sendTransaction tx = .error e →
      RpcCall.sendTransaction tx ∈ (handler cfg rpc clock cache body).trace →
      (handler cfg rpc clock cache body).cache = cache) ∧
    (∀ k, k ≠ targetAddress body →
      (handler cfg rpc clock cache body).cache.entries.lookup k = cache.entries.lookup k ∧
      ∀ t, (handler cfg rpc clock cache body).cache.get k t = cache.get k t) := by
  rcases handler_cases cfg rpc clock cache body with
    ⟨e1, hA1, h⟩ | ⟨A1, hA1, hg1, h⟩ | ⟨A1, e1, hA1, hg1, hb1, h⟩ |
    ⟨A1, b1, hA1, hg1, hb1, hgt1, h⟩ | ⟨A1, b1, e1, hA1, hg1, hb1, hle1, hp1, h⟩ |
    ⟨A1, b1, p1, e1, hA1, hg1, hb1, hle1, hp1, hs1, h⟩ |
    ⟨A1, b1, p1, r1, hA1, hg1, hb1, hle1, hp1, hs1, h⟩
  -- parse error
  · rw [h]
    refine ⟨Or.inl rfl, ?_, ?_, ?_, ?_, ?_, ?_, ?_⟩
    · intro e he
      rw [hA1] at he
      cases he
      rfl
    · intro h41
      rw [parseAddress_error_of_length_41 body h41] at hA1
      cases hA1
      rfl
    · intros; rfl
    · intros; rfl
    · intros; rfl
    · intros; rfl
    · intro k _
      exact ⟨rfl, fun _ => rfl⟩
  -- cached greed
  · rw [h]
    refine ⟨Or.inl rfl, ?_, ?_, ?_, ?_, ?_, ?_, ?_⟩
    · intro e he
      rw [hA1] at he
      cases he
    · intro h41
      rw [parseAddress_error_of_length_41 body h41] at hA1
      cases hA1
    · intros; rfl
    · intros; rfl
    · intros; rfl
    · intros; rfl
    · intro k _
      exact ⟨rfl, fun _ => rfl⟩
  -- balance query failed
  · rw [h]
    refine ⟨Or.inl rfl, ?_, ?_, ?_, ?_, ?_, ?_, ?_⟩
    · intro e he
      rw [hA1] at he
      cases he
    · intro h41
      rw [parseAddress_error_of_length_41 body h41] at hA1
      cases hA1
    · intros; rfl
    · intros; rfl
    · intros; rfl
    · intros; rfl
    · intro k _
      exact ⟨rfl, fun _ => rfl⟩
  -- live greed
  · rw [h]
    have htarget : A1 = targetAddress body := ((parseAddress_ok_iff body A1).1 hA1).1
    refine ⟨Or.inr (Or.inl ⟨A1, b1, hA1, hb1, hgt1, rfl, by rw [FIFTEEN_MIN_eq]⟩),
      ?_, ?_, ?_, ?_, ?_, ?_, ?_⟩
    · intro e he
      rw [hA1] at he
      cases he
    · intro h41
      rw [parseAddress_error_of_length_41 body h41] at hA1
      cases hA1
    · intro A v hA hv hlt
      rw [hA1] at hA
      cases hA
      have : cachedGreedy (cache.get A1 clock.request) = true :=
        (cachedGreedy_eq_true _).2 ⟨v, hv, hlt⟩
      rw [hg1] at this
      cases this
    · intro A e hA he
      rw [hA1] at hA
      cases hA
      rw [hb1] at he
      cases he
    · intro e _ hmem
      simp at hmem
    · intro tx e _ hmem
      simp at hmem
    · intro k hk
      rw [← htarget] at hk
      exact ⟨Cache.lookup_put_other cache A1 k b1 _ _ hk,
        fun t => Cache.get_put_other cache A1 k b1 _ _ t hk⟩
  -- price query failed
  · rw [h]
    refine ⟨Or.inl rfl, ?_, ?_, ?_, ?_, ?_, ?_, ?_⟩
    · intro e he
      rw [hA1] at he
      cases he
    · intro h41
      rw [parseAddress_error_of_length_41 body h41] at hA1
      cases hA1
    · intros; rfl
    · intros; rfl
    · intros; rfl
    · intros; rfl
    · intro k _
      exact ⟨rfl, fun _ => rfl⟩
  -- submission failed
  · rw [h]
    refine ⟨Or.inl rfl, ?_, ?_, ?_, ?_, ?_, ?_, ?_⟩
    · intro e he
      rw [hA1] at he
      cases he
    · intro h41
      rw [parseAddress_error_of_length_41 body h41] at hA1
      cases hA1
    · intros; rfl
    · intros; rfl
    · intros; rfl
    · intros; rfl
    · intro k _
      exact ⟨rfl, fun _ => rfl⟩
  -- submitted
  · rw [h]
    have htarget : A1 = targetAddress body := ((parseAddress_ok_iff body A1).1 hA1).1
    refine ⟨Or.inr (Or.inr ⟨A1, b1, r1, hA1, hb1, rfl, by rw [FIFTEEN_MIN_eq]⟩),
      ?_, ?_, ?_, ?_, ?_, ?_, ?_⟩
    · intro e he
      rw [hA1] at he
      cases he
    · intro h41
      rw [parseAddress_error_of_length_41 body h41] at hA1
      cases hA1
    · intro A v hA hv hlt
      rw [hA1] at hA
      cases hA
      have : cachedGreedy (cache.get A1 clock.request) = true :=
        (cachedGreedy_eq_true _).2 ⟨v, hv, hlt⟩
      rw [hg1] at this
      cases this
    · intro A e hA he
      rw [hA1] at hA
      cases hA
      rw [hb1] at he
      cases he
    · intro e he _
      rw [hp1] at he
      cases he
    · intro tx e he hmem
      simp at hmem
      subst hmem
      rw [hs1] at he
      cases he
    · intro k hk
      rw [← htarget] at hk
      exact ⟨Cache.lookup_put_other cache A1 k _ _ _ hk,
        fun t => Cache.get_put_other cache A1 k _ _ _ t hk⟩

/-- Worked example for C8: a raw string of length 41 leaves a non-empty cache
untouched and makes no RPC call; a failed submission leaves it untouched too. -/
theorem cache_changes_only_on_live_greed_or_dispense_witness :
    handler exampleConfig (exampleRpc 0 1000000000) exampleClock
        (Cache.mk [(exampleAddress, ⟨7, 5000⟩)]) (exampleAddress.take 41) =
      ⟨.json 500 (js "Address parse failure - " ++ targetAddress (exampleAddress.take 41)),
        Cache.mk [(exampleAddress, ⟨7, 5000⟩)], []⟩ ∧
    (handler exampleConfig
        { getBalance := fun _ _ => .ok 0, gasPrice := .ok 1000000000,
          sendTransaction := fun _ => .error (js "nonce too low") }
        exampleClock (Cache.mk [(exampleAddress, ⟨7, 5000⟩)]) exampleAddress).cache =
      Cache.mk [(exampleAddress, ⟨7, 5000⟩)] :=
  ⟨(cache_changes_only_on_live_greed_or_dispense exampleConfig (exampleRpc 0 1000000000)
      exampleClock (Cache.mk [(exampleAddress, ⟨7, 5000⟩)])
      (exampleAddress.take 41)).2.2.1 (by decide),
    (cache_changes_only_on_live_greed_or_dispense exampleConfig
      { getBalance := fun _ _ => .ok 0, gasPrice := .ok 1000000000,
        sendTransaction := fun _ => .error (js "nonce too low") }
      exampleClock (Cache.mk [(exampleAddress, ⟨7, 5000⟩)]) exampleAddress).2.2.2.2.2.2.1
      (mkTransaction exampleConfig exampleAddress 1000000000) (js "nonce too low") rfl
      (by decide)⟩

/-! ## Repeat requests below the ceiling -/

/-- A request that is answered with a transaction result went through the whole
chain: the cache afterwards is the old one with the projected balance written. -/
theorem handler_sent_inv (cfg : Config) (rpc : Rpc) (clock : Clock) (cache : Cache)
    (body A r : JsString) (B : Nat) (hA : parseAddress body = .ok A)
    (hB : rpc.getBalance A (js "pending") = .ok B)
    (hsent : (handler cfg rpc clock cache body).response = .send r) :
    (handler cfg rpc clock cache body).cache
      = cache.put A (B + 10 ^ 18) FIFTEEN_MIN clock.sent := by
  rcases handler_cases cfg rpc clock cache body with
    ⟨e, _, h⟩ | ⟨A1, _, _, h⟩ | ⟨A1, e, _, _, _, h⟩ | ⟨A1, b, _, _, _, _, h⟩ |
    ⟨A1, b, e, _, _, _, _, _, h⟩ | ⟨A1, b, p, e, _, _, _, _, _, _, h⟩ |
    ⟨A1, b, p, r1, hA1, _, hb, _, _, _, h⟩
  all_goals rw [h] at hsent
  all_goals try (simp [didError] at hsent; done)
  rw [hA] at hA1
  cases hA1
  rw [hB] at hb
  cases hb
  rw [h]

/-- C10: when a request for the validated address `A` is served with a pre-send
live balance `B` such that `B + 10^18 ≤ 10^19`, the value cached for `A` is
`B + 10^18`, which is not strictly greater than the ceiling; so a following
request for `A`, at any time, is not rejected by the cache check: its first
action is the live balance query, and whenever that query returns a balance
`≤ 10^19` and the price query and the submission succeed, it is served again
(the transaction is submitted and its result returned). -/
theorem repeat_dispense_below_ceiling (cfg : Config) (rpc rpc2 : Rpc) (clock clock2 : Clock)
    (cache : Cache) (body body2 A r : JsString) (B : Nat)
    (hA : parseAddress body = .ok A)
    (hB : rpc.getBalance A (js "pending") = .ok B)
    (hsent : (handler cfg rpc clock cache body).response = .send r)
    (hroom : B + 10 ^ 18 ≤ 10 ^ 19)
    (hA2 : parseAddress body2 = .ok A) :
    (handler cfg rpc clock cache body).cache.entries.lookup A
      = some ⟨B + 10 ^ 18, clock.sent + 900000⟩ ∧
    (∀ t v, (handler cfg rpc clock cache body).cache.get A t = some v → v ≤ 10 ^ 19) ∧
    (handler cfg rpc2 clock2 (handler cfg rpc clock cache body).cache body2).trace.head?
      = some (.getBalance A (js "pending")) ∧
    (∀ B2 p2 r2, rpc2.getBalance A (js "pending") = .ok B2 → B2 ≤ 10 ^ 19 →
      rpc2.gasPrice = .ok p2 → rpc2.sendTransaction (mkTransaction cfg A p2) = .ok r2 →
      (handler cfg rpc2 clock2 (handler cfg rpc clock cache body).cache body2).response
        = .send r2 ∧
      (handler cfg rpc2 clock2 (handler cfg rpc clock cache body).cache body2).trace
        = [.getBalance A (js "pending"), .gasPrice,
            .sendTransaction (mkTransaction cfg A p2)]) := by
  have hc := handler_sent_inv cfg rpc clock cache body A r B hA hB hsent
  have h3 : (handler cfg rpc clock cache body).cache.entries.lookup A
      = some ⟨B + 10 ^ 18, clock.sent + 900000⟩ := by
    rw [hc, Cache.lookup_put_same, FIFTEEN_MIN_eq]
  have hle : ∀ t v, (handler cfg rpc clock cache body).cache.get A t = some v →
      v ≤ 10 ^ 19 := by
    intro t v hv
    unfold Cache.get at hv
    rw [h3] at hv
    simp only at hv
    split at hv
    · cases hv
      exact hroom
    · cases hv
  have hg2 : cachedGreedy ((handler cfg rpc clock cache body).cache.get A clock2.request)
      = false := by
    cases hc : cachedGreedy ((handler cfg rpc clock cache body).cache.get A clock2.request) with
    | false => rfl
    | true =>
      obtain ⟨v, hv, hlt⟩ := (cachedGreedy_eq_true _).1 hc
      have := hle _ v hv
      omega
  refine ⟨h3, hle, ?_, ?_⟩
  · rcases handler_cases cfg rpc2 clock2 (handler cfg rpc clock cache body).cache body2 with
      ⟨e1, hA1, h⟩ | ⟨A1, hA1, hg1, h⟩ | ⟨A1, e1, hA1, hg1, hb1, h⟩ |
      ⟨A1, b1, hA1, hg1, hb1, hgt1, h⟩ | ⟨A1, b1, e1, hA1, hg1, hb1, hle1, hp1, h⟩ |
      ⟨A1, b1, p1, e1, hA1, hg1, hb1, hle1, hp1, hs1, h⟩ |
      ⟨A1, b1, p1, r1, hA1, hg1, hb1, hle1, hp1, hs1, h⟩
    all_goals rw [hA2] at hA1
    all_goals cases hA1
    · rw [hg2] at hg1
      cases hg1
    all_goals rw [h]
    all_goals rfl
  · intro B2 p2 r2 hB2 hB2le hp2 hs2
    rw [handler_sent cfg rpc2 clock2 _ body2 A r2 B2 p2 hA2 hg2 hB2 hB2le hp2 hs2]
    exact ⟨rfl, rfl⟩

/-- Worked example for C10: two requests for the example address in a row, the
node reporting a balance of `0` and then of `10^18`; both are served. -/
theorem repeat_dispense_below_ceiling_witness :
    (handler exampleConfig (exampleRpc 0 1000000000) exampleClock emptyCache
        exampleAddress).response = .send (js "0x7e57") ∧
    (handler exampleConfig (exampleRpc (10 ^ 18) 1000000000) ⟨2000, 2100, 2200⟩
        (handler exampleConfig (exampleRpc 0 1000000000) exampleClock emptyCache
          exampleAddress).cache exampleAddress).response = .send (js "0x7e57") :=
  ⟨by decide,
    ((repeat_dispense_below_ceiling exampleConfig (exampleRpc 0 1000000000)
      (exampleRpc (10 ^ 18) 1000000000) exampleClock ⟨2000, 2100, 2200⟩ emptyCache
      exampleAddress exampleAddress exampleAddress (js "0x7e57") 0 rfl rfl (by decide)
      (by decide) rfl).2.2.2 (10 ^ 18) 1000000000 (js "0x7e57") rfl (by decide) rfl rfl).1⟩

/-! ## The rate limiter in front of the handler -/

theorem roll_same_window (st : LimiterState) (now : Nat)
    (h : now < st.windowStart + 900000) : limiter.roll st now = st := by
  have : now < st.windowStart + limiter.windowMs := h
  simp [RateLimit.roll, this]

theorem post_limiter (cfg : Config) (s : ServerState) (req : Request)
    (h : req.clock.request < s.limiter.windowStart + 900000) :
    (post cfg s req).1.limiter = ⟨s.limiter.windowStart, req.ip :: s.limiter.hits⟩ := by
  unfold post RateLimit.allow
  rw [roll_same_window s.limiter _ h]
  split <;> rename_i heq <;> simp only [Prod.mk.injEq] at heq <;> rw [← heq.2]

theorem serve_limiter (cfg : Config) (reqs : List Request) (s : ServerState)
    (h : ∀ r ∈ reqs, r.clock.request < s.limiter.windowStart + 900000) :
    (serve cfg s reqs).limiter =
      ⟨s.limiter.windowStart, (reqs.map Request.ip).reverse ++ s.limiter.hits⟩ := by
  induction reqs generalizing s with
  | nil => rfl
  | cons r rs ih =>
    have hr := post_limiter cfg s r (h r (List.mem_cons_self r rs))
    have hrs : ∀ x ∈ rs, x.clock.request < (post cfg s r).1.limiter.windowStart + 900000 := by
      intro x hx
      rw [hr]
      exact h x (List.mem_cons_of_mem r hx)
    have := ih (post cfg s r).1 hrs
    simp only [serve, List.foldl_cons] at this ⊢
    rw [this, hr]
    simp

/-- C9: the limiter on `POST /` is configured with a window of `900000` ms (15
minutes) and a cap of `200`, and runs before the fauceting handler. Within one
window (no request arrives `900000` ms or more after the window started), once
an origin has made 200 requests, whatever their bodies and whatever other
origins did in between, its next request is rejected by the limiter: the
response is the limiter's, no RPC call is made and the cache is left as it was.
A request that is at most the origin's 200th in the window does reach the
handler. -/
theorem limiter_rejects_after_200 (cfg : Config) (s : ServerState) (reqs : List Request)
    (req : Request)
    (hwin : ∀ r ∈ reqs ++ [req], r.clock.request < s.limiter.windowStart + 900000) :
    limiter.windowMs = 900000 ∧ limiter.max = 200 ∧
    (200 ≤ (reqs.map Request.ip).count req.ip →
      (post cfg (serve cfg s reqs) req).2
        = ⟨.tooManyRequests, (serve cfg s reqs).cache, []⟩ ∧
      (post cfg (serve cfg s reqs) req).1.cache = (serve cfg s reqs).cache) ∧
    ((reqs.map Request.ip).count req.ip + s.limiter.hits.count req.ip < 200 →
      (post cfg (serve cfg s reqs) req).2
        = handler cfg req.rpc req.clock (serve cfg s reqs).cache req.body) := by
  have hl := serve_limiter cfg reqs s
    (fun r hr => hwin r (List.mem_append_left _ hr))
  have hreq : req.clock.request < (serve cfg s reqs).limiter.windowStart + 900000 := by
    rw [hl]
    exact hwin req (by simp)
  have hcount : (req.ip :: (limiter.roll (serve cfg s reqs).limiter req.clock.request).hits).count
      req.ip = (reqs.map Request.ip).count req.ip + s.limiter.hits.count req.ip + 1 := by
    rw [roll_same_window _ _ hreq, hl]
    simp [List.count_cons]
  refine ⟨rfl, rfl, ?_, ?_⟩
  · intro h200
    have hno : ¬ (req.ip :: (limiter.roll (serve cfg s reqs).limiter
        req.clock.request).hits).count req.ip ≤ limiter.max := by
      rw [hcount]
      show ¬ _ ≤ 200
      omega
    have hd := decide_eq_false hno
    simp only [post, RateLimit.allow, hd, and_self]
  · intro hlt
    have hyes : (req.ip :: (limiter.roll (serve cfg s reqs).limiter
        req.clock.request).hits).count req.ip ≤ limiter.max := by
      rw [hcount]
      show _ ≤ 200
      omega
    have hd := decide_eq_true hyes
    simp only [post, RateLimit.allow, hd]

/-- Worked example for C9: after 200 requests of one origin to a fresh process,
its 201st is answered by the limiter, and its first reaches the handler. -/
theorem limiter_rejects_after_200_witness :
    (post exampleConfig (serve exampleConfig freshServer (List.replicate 200 exampleRequest))
        exampleRequest).2 =
      ⟨.tooManyRequests,
        (serve exampleConfig freshServer (List.replicate 200 exampleRequest)).cache, []⟩ ∧
    (post exampleConfig freshServer exampleRequest).2.response = .send (js "0x7e57") :=
  ⟨((limiter_rejects_after_200 exampleConfig freshServer (List.replicate 200 exampleRequest)
      exampleRequest
      (by
        intro r hr
        have hr1 : r = exampleRequest := by
          rcases List.mem_append.1 hr with h | h
          · exact (List.mem_replicate.1 h).2
          · exact List.mem_singleton.1 h
        rw [hr1]
        decide)).2.2.1
      (by rw [List.map_replicate, List.count_replicate_self])).1,
    by decide⟩

end Faucet
